import Mathlib

/-!
Shallow embedding of the aix-metadata-collector core (src/include/types.h,
src/include/collector_base.h, src/src/port_collector.cpp,
src/src/process_collector.cpp, src/src/file_collector.cpp) and proofs about
the claims of its specification.

External effects (OS calls, subprocess output) are modelled as explicit
environment records; pure C++ logic is translated function by function.
`strtol` is modelled with unbounded integers: every comparison the program
makes against a `strtol` result uses a bound of at most `INT32_MAX`, which is
below `LONG_MAX`, so the clamping `strtol` performs on overflow never changes
the outcome of any of those comparisons.
-/

namespace AixMetadata

/-- types.h `MetadataAttribute`: a named fact with one or more string values. -/
structure MetadataAttribute where
  name : String
  values : List String
deriving Repr, DecidableEq

/-- types.h `MetadataResult`: the outcome of one collection call.
The default constructor leaves `type`, `identifier`, `errorMessage` empty,
`attributes` empty and sets `success` to false. -/
structure MetadataResult where
  type : String
  identifier : String
  attributes : List MetadataAttribute
  success : Bool
  errorMessage : String
deriving Repr, DecidableEq

/-- `MetadataResult()` default constructor (types.h line 56). -/
def MetadataResult.mkEmpty : MetadataResult :=
  { type := "", identifier := "", attributes := [], success := false, errorMessage := "" }

/-- `MetadataResult::addAttribute(name, value)` single-value overload. -/
def MetadataResult.addAttribute (r : MetadataResult) (n v : String) : MetadataResult :=
  { r with attributes := r.attributes ++ [⟨n, [v]⟩] }

/-- collector_base.h `CollectorBase::createErrorResult`: default-constructs a
result and sets only `success`, `identifier` and `errorMessage`. -/
def createErrorResult (identifier errorMsg : String) : MetadataResult :=
  { MetadataResult.mkEmpty with
      success := false, identifier := identifier, errorMessage := errorMsg }

/-- types.h `Protocol`: protocol filter for port queries. -/
inductive Protocol where
  | TCP
  | UDP
  | Both
deriving Repr, DecidableEq

/-! ## Model of `strtol(nptr, &endPtr, 10)` -/

/-- Whitespace as classified by `isspace` in the C locale (what both
`strtol` and `istream >> token` skip). -/
def isCSpace (c : Char) : Bool :=
  c = ' ' || c = '\t' || c = '\n' || c = Char.ofNat 11 || c = Char.ofNat 12 || c = '\r'

/-- Value of a base-10 digit string, most significant digit first. -/
def digitsVal (ds : List Char) : Nat :=
  ds.foldl (fun a c => 10 * a + (c.toNat - 48)) 0

/-- Outcome of a `strtol` call: whether any conversion was performed, the
converted value (0 when none), and the suffix starting at `endPtr`
(`strtol` resets `endPtr` to the start of the input when no conversion
was performed, so `rest` is then the whole input). -/
structure StrtolResult where
  converted : Bool
  value : Int
  rest : List Char
deriving Repr, DecidableEq

/-- `strtol(cs, &endPtr, 10)`: skip whitespace, read an optional sign, then a
maximal run of decimal digits. -/
def strtol10 (cs : List Char) : StrtolResult :=
  let afterWs := cs.dropWhile isCSpace
  let signNeg : Bool :=
    match afterWs with
    | c :: _ => c = '-'
    | [] => false
  let afterSign : List Char :=
    match afterWs with
    | c :: t => if c = '-' || c = '+' then t else afterWs
    | [] => afterWs
  let digits := afterSign.takeWhile Char.isDigit
  let rest := afterSign.dropWhile Char.isDigit
  if digits.isEmpty then ⟨false, 0, cs⟩
  else ⟨true, if signNeg then -(digitsVal digits : Int) else (digitsVal digits : Int), rest⟩

/-- The value of a string that `strtol` converts in full (conversion performed
and `endPtr` left at the terminating NUL); `none` otherwise.  This is the
program's own notion of "the whole identifier is a base-10 integer". -/
def strtolWhole (s : String) : Option Int :=
  let r := strtol10 s.data
  if r.converted && r.rest.isEmpty then some r.value else none

/-- port_collector.cpp `PortCollector::parsePort` (lines 99-115): full-string
base-10 conversion, then range check `1 ≤ value ≤ 65535`. -/
def PortCollector.parsePort (identifier : String) : Option Nat :=
  let r := strtol10 identifier.data
  if !r.converted || !r.rest.isEmpty then none
  else if r.value ≤ 0 || r.value > 65535 then none
  else some r.value.toNat

/-- process_collector.cpp `ProcessCollector::parsePid` (lines 71-87):
full-string base-10 conversion, then range check `1 ≤ value ≤ INT32_MAX`. -/
def ProcessCollector.parsePid (identifier : String) : Option Nat :=
  let r := strtol10 identifier.data
  if !r.converted || !r.rest.isEmpty then none
  else if r.value ≤ 0 || r.value > 2147483647 then none
  else some r.value.toNat

/-! ## Netstat output parsing (port_collector.cpp lines 187-287) -/

/-- `std::getline(stream, line)` over a whole string: split on newline
characters (a trailing newline yields a final empty piece, which the parser
skips as an empty line, exactly as `getline` produces no piece for it). -/
def splitOnNl : List Char → List (List Char)
  | [] => [[]]
  | c :: t =>
    let r := splitOnNl t
    if c = '\n' then [] :: r
    else
      match r with
      | h :: t2 => (c :: h) :: t2
      | [] => [[c]]

/-- The `while (lineStream >> token)` loop: split a line into maximal runs of
non-whitespace characters. The accumulator holds the current token reversed. -/
def tokenizeAux : List Char → List Char → List (List Char)
  | [], cur => if cur.isEmpty then [] else [cur.reverse]
  | c :: t, cur =>
    if isCSpace c then
      if cur.isEmpty then tokenizeAux t [] else cur.reverse :: tokenizeAux t []
    else tokenizeAux t (c :: cur)

/-- Whitespace tokenization of one line (as characters) into `std::string`
tokens. -/
def lineTokens (lcs : List Char) : List String :=
  (tokenizeAux lcs []).map fun l => ⟨l⟩

/-- Whitespace tokenization of one line into `std::string` tokens. -/
def tokenize (line : String) : List String :=
  lineTokens line.data

/-- Hexadecimal digit as listed in the `find_first_not_of` set
`"0123456789abcdefABCDEF"` (port_collector.cpp line 227). -/
def isHexChar (c : Char) : Bool :=
  c.isDigit || (('a' ≤ c && c ≤ 'f') || ('A' ≤ c && c ≤ 'F'))

/-- Socket-handle detection (port_collector.cpp line 227): longer than 10
characters and made of hexadecimal digits only. -/
def isSocketHandle (tok : String) : Bool :=
  tok.length > 10 && tok.data.all isHexChar

/-- `addr.rfind('.')` followed by the two `substr` calls: split a character
list at its last dot into (part before, part after); `none` when the list
has no dot. -/
def rsplitDot : List Char → Option (List Char × List Char)
  | [] => none
  | c :: t =>
    match rsplitDot t with
    | some (a, b) => some (c :: a, b)
    | none => if c = '.' then some ([], t) else none

/-- port_collector.h `ConnectionInfo`.  `pid` is set to 0 by the parser before
correlation; the string fields default to empty strings. -/
structure ConnectionInfo where
  protocol : String
  localAddress : String
  localPort : String
  remoteAddress : String
  remotePort : String
  state : String
  pid : Int
  processName : String
  user : String
deriving Repr, DecidableEq

/-- The per-line loop body of `findProcessForPort` (port_collector.cpp lines
324-350, AIX branch): skip empty lines, lines with fewer than 2 tokens and the
`COMMAND` header; on the first line with at least 3 tokens take command name,
numeric PID (only when `strtol` consumed the whole token) and user, then stop. -/
def lsofApply : List (List Char) → ConnectionInfo → ConnectionInfo
  | [], info => info
  | lcs :: rest, info =>
    if lcs.isEmpty then lsofApply rest info
    else if (lineTokens lcs).length < 2 || (lineTokens lcs).headD "" = "COMMAND" then
      lsofApply rest info
    else if 3 ≤ (lineTokens lcs).length then
      { info with
          processName := (lineTokens lcs).getD 0 ""
          pid :=
            if (strtol10 ((lineTokens lcs).getD 1 "").data).rest.isEmpty then
              (strtol10 ((lineTokens lcs).getD 1 "").data).value
            else info.pid
          user := (lineTokens lcs).getD 2 "" }
    else lsofApply rest info

/-- port_collector.cpp `PortCollector::findProcessForPort` (AIX branch).
`lsofOut` is the captured output of the `lsof -i :port | grep -i protocol`
pipeline; `none` models `executeCommand` returning false.  A failed command or
empty output leaves the connection info untouched. -/
def findProcessForPort (lsofOut : Option String) (info : ConnectionInfo) : ConnectionInfo :=
  match lsofOut with
  | none => info
  | some out => if out = "" then info else lsofApply (splitOnNl out.data) info

/-- Column extraction of `parseNetstatOutput` for one line (port_collector.cpp
lines 205-236): skip empty lines, tokenize, require at least 6 tokens,
classify an optional leading socket-handle token which shifts the column
offsets by one, and return (socket handle or empty, local address, foreign
address, state). -/
def netstatColumns (line : String) : Option (String × String × String × String) :=
  if line = "" then none
  else
    let tokens := tokenize line
    if tokens.length < 6 then none
    else
      let first := tokens.headD ""
      let socketAddr := if isSocketHandle first then first else ""
      let offset := if isSocketHandle first then 1 else 0
      if tokens.length < offset + 6 then none
      else some (socketAddr, tokens.getD (offset + 3) "",
                 tokens.getD (offset + 4) "", tokens.getD (offset + 5) "")

/-- The `*endPtr == '\0' && value == port` test applied to a port substring
(port_collector.cpp lines 246-248 and 252-254). -/
def portTokenMatches (port : Nat) (cs : List Char) : Bool :=
  (strtol10 cs).rest.isEmpty && (strtol10 cs).value == (port : Int)

/-- The keep rule (port_collector.cpp lines 245-260): the local port matches,
or else the foreign address splits at a last dot and its port matches. -/
def keepLine (port : Nat) (lpCs : List Char) (foreignAddr : String) : Bool :=
  if portTokenMatches port lpCs then true
  else
    match rsplitDot foreignAddr.data with
    | some (_, fpCs) => portTokenMatches port fpCs
    | none => false

/-- The connection record built for a kept line (port_collector.cpp lines
262-278), before process correlation. -/
def buildConnInfo (protocol : String) (ipCs lpCs : List Char)
    (foreignAddr state : String) : ConnectionInfo :=
  { protocol := protocol
    localAddress := ⟨ipCs⟩
    localPort := ⟨lpCs⟩
    remoteAddress :=
      match rsplitDot foreignAddr.data with
      | some (a, _) => ⟨a⟩
      | none => foreignAddr
    remotePort :=
      match rsplitDot foreignAddr.data with
      | some (_, b) => ⟨b⟩
      | none => "*"
    state := state
    pid := 0
    processName := ""
    user := "" }

/-- The rest of the per-line logic of `parseNetstatOutput` (port_collector.cpp
lines 238-286): split the local address at its last dot (no dot: skip the
line), keep the line when the local port or else the foreign port re-parses to
the target port, build the connection record, and correlate a process only
when a socket-handle token was present. -/
def parseNetstatLine (lsofOut : Option String) (port : Nat) (protocol : String)
    (line : String) : Option ConnectionInfo :=
  match netstatColumns line with
  | none => none
  | some (socketAddr, localAddr, foreignAddr, state) =>
    match rsplitDot localAddr.data with
    | none => none
    | some (ipCs, lpCs) =>
      if keepLine port lpCs foreignAddr then
        let base := buildConnInfo protocol ipCs lpCs foreignAddr state
        some (if socketAddr ≠ "" then findProcessForPort lsofOut base else base)
      else none

/-- port_collector.cpp `PortCollector::parseNetstatOutput`: apply the per-line
logic to every `getline` piece of the command output, appending the kept
records in line order. -/
def parseNetstatOutput (lsofOut : Option String) (output : String) (port : Nat)
    (protocol : String) : List ConnectionInfo :=
  ((splitOnNl output.data).map (fun l => (⟨l⟩ : String))).filterMap
    (parseNetstatLine lsofOut port protocol)

/-! ## Port collector (port_collector.cpp lines 32-185) -/

/-- Captured outputs of the external commands the port collector runs.
Each field is the result of one `executeCommand` call: `none` models a call
that returned false, `some out` a call that captured `out`.  `lsof` is keyed
by the port and protocol interpolated into the `lsof -i :port | grep -i proto`
command line. -/
structure PortEnv where
  tcp4 : Option String
  tcp4Fallback : Option String
  tcp6 : Option String
  udp4 : Option String
  udp4Fallback : Option String
  udp6 : Option String
  lsof : Nat → String → Option String

/-- port_collector.cpp `PortCollector::collectTcpConnections`: parse the IPv4
netstat output (trying the `-A`-less fallback command when the first fails;
when both fail nothing is parsed, not even IPv6), then append the IPv6 pass. -/
def collectTcpConnections (env : PortEnv) (port : Nat) : List ConnectionInfo :=
  match (match env.tcp4 with | some o => some o | none => env.tcp4Fallback) with
  | none => []
  | some out =>
    parseNetstatOutput (env.lsof port "tcp") out port "tcp" ++
      match env.tcp6 with
      | some o6 => parseNetstatOutput (env.lsof port "tcp6") o6 port "tcp6"
      | none => []

/-- port_collector.cpp `PortCollector::collectUdpConnections`: same structure
as the TCP variant. -/
def collectUdpConnections (env : PortEnv) (port : Nat) : List ConnectionInfo :=
  match (match env.udp4 with | some o => some o | none => env.udp4Fallback) with
  | none => []
  | some out =>
    parseNetstatOutput (env.lsof port "udp") out port "udp" ++
      match env.udp6 with
      | some o6 => parseNetstatOutput (env.lsof port "udp6") o6 port "udp6"
      | none => []

/-- The connection list accumulated by `PortCollector::collect` (lines 42-52):
TCP connections (when requested) followed by UDP connections (when
requested). -/
def collectConnections (env : PortEnv) (proto : Protocol) (port : Nat) :
    List ConnectionInfo :=
  (if proto = Protocol.TCP ∨ proto = Protocol.Both then collectTcpConnections env port else []) ++
    (if proto = Protocol.UDP ∨ proto = Protocol.Both then collectUdpConnections env port else [])

/-- The attribute block the `for` loop of `PortCollector::collect` (lines
66-94) emits for the connection at index `idx`. -/
def connectionAttrs (idx : Nat) (conn : ConnectionInfo) : List MetadataAttribute :=
  let pfx := "connection_" ++ toString idx ++ "_"
  [⟨pfx ++ "protocol", [conn.protocol]⟩,
   ⟨pfx ++ "local_address", [conn.localAddress]⟩,
   ⟨pfx ++ "local_port", [conn.localPort]⟩,
   ⟨pfx ++ "remote_address", [conn.remoteAddress]⟩,
   ⟨pfx ++ "remote_port", [conn.remotePort]⟩,
   ⟨pfx ++ "state", [conn.state]⟩] ++
    (if 0 < conn.pid then [⟨pfx ++ "pid", [toString conn.pid]⟩] else []) ++
    (if conn.processName ≠ "" then [⟨pfx ++ "process", [conn.processName]⟩] else []) ++
    (if conn.user ≠ "" then [⟨pfx ++ "user", [conn.user]⟩] else [])

/-- One iteration of that loop: append the block for the current connection
and increment `connIndex`. -/
def connFoldStep (p : MetadataResult × Nat) (conn : ConnectionInfo) :
    MetadataResult × Nat :=
  ({ p.1 with attributes := p.1.attributes ++ connectionAttrs p.2 conn }, p.2 + 1)

/-- port_collector.cpp `PortCollector::collect` (lines 32-97). -/
def PortCollector.collect (env : PortEnv) (proto : Protocol) (identifier : String) :
    MetadataResult :=
  let result : MetadataResult :=
    { MetadataResult.mkEmpty with type := "port", identifier := identifier }
  match PortCollector.parsePort identifier with
  | none => createErrorResult identifier ("Invalid port number: " ++ identifier)
  | some port =>
    let connections := collectConnections env proto port
    if connections.isEmpty then
      let r0 := { result with success := true }
      (r0.addAttribute "status" "no_connections_found").addAttribute "port" identifier
    else
      let r0 := { result with success := true }
      let base :=
        (r0.addAttribute "port" identifier).addAttribute "num_connections"
          (toString (Int.ofNat connections.length))
      (connections.foldl connFoldStep (base, 0)).1

/-- A port environment in which every external command fails. -/
def emptyPortEnv : PortEnv :=
  { tcp4 := none, tcp4Fallback := none, tcp6 := none,
    udp4 := none, udp4Fallback := none, udp6 := none,
    lsof := fun _ _ => none }

/-! ## Process collector (process_collector.cpp lines 39-69) -/

/-- OS-facing part of the process collector.  `basicInfo pid` models
`collectBasicInfo`: `none` when `getprocs64` does not return exactly the
requested process (the function then returns false before touching the
result), `some attrs` the attribute list it appends otherwise.  The remaining
fields model the attribute lists appended by the best-effort sub-collections,
each of which only ever appends attributes. -/
structure ProcEnv where
  basicInfo : Nat → Option (List MetadataAttribute)
  execPath : Nat → List MetadataAttribute
  workDir : Nat → List MetadataAttribute
  cmdLine : Nat → List MetadataAttribute
  credentials : Nat → List MetadataAttribute
  openFiles : Nat → List MetadataAttribute
  wpar : Nat → List MetadataAttribute

/-- process_collector.cpp `ProcessCollector::collect`. -/
def ProcessCollector.collect (env : ProcEnv) (identifier : String) : MetadataResult :=
  match ProcessCollector.parsePid identifier with
  | none => createErrorResult identifier ("Invalid PID format: " ++ identifier)
  | some pid =>
    match env.basicInfo pid with
    | none =>
      createErrorResult identifier
        ("Process not found or access denied for PID: " ++ identifier)
    | some attrs =>
      { type := "process", identifier := identifier,
        attributes := attrs ++ env.execPath pid ++ env.workDir pid ++ env.cmdLine pid ++
          env.credentials pid ++ env.openFiles pid ++ env.wpar pid,
        success := true, errorMessage := "" }

/-- A process environment in which no process exists. -/
def emptyProcEnv : ProcEnv :=
  { basicInfo := fun _ => none, execPath := fun _ => [], workDir := fun _ => [],
    cmdLine := fun _ => [], credentials := fun _ => [], openFiles := fun _ => [],
    wpar := fun _ => [] }

/-! ## File collector (file_collector.cpp) -/

/-- One `struct stat64` as far as the collector reads it.  `rdevMajor` and
`rdevMinor` are the values of `major(st_rdev)` and `minor(st_rdev)`. -/
structure FileStat where
  mode : Nat
  size : Nat
  dev : Nat
  ino : Nat
  nlink : Nat
  uid : Nat
  gid : Nat
  atime : Int
  mtime : Int
  ctime : Int
  blksize : Int
  blocks : Int
  rdevMajor : Int
  rdevMinor : Int
deriving Repr, DecidableEq

/-- OS-facing part of the file collector: `lstat64`/`stat64` results per path
(`none` is a failing call), `readlink` targets (`none` models a failing or
zero-length read), `strerror` text for a failing `lstat64`, name lookups for
uid/gid, the `localtime`/`strftime` rendering, and the three `access` checks. -/
structure FileEnv where
  lstat64 : String → Option FileStat
  stat64 : String → Option FileStat
  readlink : String → Option String
  lstatError : String → String
  pwName : Nat → Option String
  grName : Nat → Option String
  timeString : Int → String
  accessR : String → Bool
  accessW : String → Bool
  accessX : String → Bool

/-- `st_mode` format mask and type values (POSIX, as used via the
`S_IS*` macros). -/
def S_IFMT : Nat := 0o170000

def S_ISREG (m : Nat) : Bool := m &&& S_IFMT == 0o100000

def S_ISDIR (m : Nat) : Bool := m &&& S_IFMT == 0o040000

def S_ISLNK (m : Nat) : Bool := m &&& S_IFMT == 0o120000

def S_ISBLK (m : Nat) : Bool := m &&& S_IFMT == 0o060000

def S_ISCHR (m : Nat) : Bool := m &&& S_IFMT == 0o020000

def S_ISFIFO (m : Nat) : Bool := m &&& S_IFMT == 0o010000

def S_ISSOCK (m : Nat) : Bool := m &&& S_IFMT == 0o140000

/-- file_collector.cpp `FileCollector::fileTypeToString` (lines 218-227). -/
def fileTypeToString (mode : Nat) : String :=
  if S_ISREG mode then "regular"
  else if S_ISDIR mode then "directory"
  else if S_ISLNK mode then "symlink"
  else if S_ISBLK mode then "block_device"
  else if S_ISCHR mode then "character_device"
  else if S_ISFIFO mode then "fifo"
  else if S_ISSOCK mode then "socket"
  else "unknown"

/-- file_collector.cpp `FileCollector::modeToSymbolic` (lines 229-261):
nine permission characters with `s`/`S`/`t`/`T` substitutions for the
setuid, setgid and sticky bits. -/
def modeToSymbolic (mode : Nat) : String :=
  ⟨[if mode &&& 0o400 != 0 then 'r' else '-',
    if mode &&& 0o200 != 0 then 'w' else '-',
    if mode &&& 0o4000 != 0 then (if mode &&& 0o100 != 0 then 's' else 'S')
    else (if mode &&& 0o100 != 0 then 'x' else '-'),
    if mode &&& 0o040 != 0 then 'r' else '-',
    if mode &&& 0o020 != 0 then 'w' else '-',
    if mode &&& 0o2000 != 0 then (if mode &&& 0o010 != 0 then 's' else 'S')
    else (if mode &&& 0o010 != 0 then 'x' else '-'),
    if mode &&& 0o004 != 0 then 'r' else '-',
    if mode &&& 0o002 != 0 then 'w' else '-',
    if mode &&& 0o1000 != 0 then (if mode &&& 0o001 != 0 then 't' else 'T')
    else (if mode &&& 0o001 != 0 then 'x' else '-')]⟩

/-- The `"0" << std::oct << (st_mode & 07777)` rendering (lines 115-117). -/
def modeOctal (mode : Nat) : String :=
  "0" ++ ⟨Nat.toDigits 8 (mode &&& 0o7777)⟩

/-- The single-quote character, as interpolated into the stat error
message. -/
def squote : String := ⟨[Char.ofNat 39]⟩

/-- file_collector.cpp `FileCollector::collectSymlinkInfo` as the attribute
list it appends. -/
def collectSymlinkInfoAttrs (env : FileEnv) (path : String) : List MetadataAttribute :=
  ⟨"is_symlink", ["true"]⟩ ::
    match env.readlink path with
    | some target =>
      if target ≠ "" then
        [⟨"symlink_target", [target]⟩,
         ⟨"symlink_type",
          [if target.data.headD ' ' = '/' then "absolute" else "relative"]⟩]
      else [⟨"symlink_target", ["unreadable"]⟩]
    | none => [⟨"symlink_target", ["unreadable"]⟩]

/-- file_collector.cpp `FileCollector::collectOwnership` as the attribute list
it appends (uid, resolved owner or "unknown", gid, resolved group or
"unknown"). -/
def collectOwnershipAttrs (env : FileEnv) (st : FileStat) : List MetadataAttribute :=
  [⟨"uid", [toString (Int.ofNat st.uid)]⟩,
   ⟨"owner", [match env.pwName st.uid with | some n => n | none => "unknown"]⟩,
   ⟨"gid", [toString (Int.ofNat st.gid)]⟩,
   ⟨"group", [match env.grName st.gid with | some n => n | none => "unknown"]⟩]

/-- file_collector.cpp `FileCollector::collectStats` (lines 68-157): `false`
with the error fields set on `lstat64` failure; otherwise `true` with the full
attribute list appended.  `statBuf` is the followed-target stat for an intact
symlink and the link's own stat otherwise. -/
def collectStats (env : FileEnv) (path : String) (result : MetadataResult) :
    Bool × MetadataResult :=
  match env.lstat64 path with
  | none =>
    (false,
      { result with
          success := false
          errorMessage := "Cannot stat file " ++ squote ++ path ++ squote ++ ": " ++
            env.lstatError path })
  | some lst =>
    let isSymlink := S_ISLNK lst.mode
    let statBuf :=
      if isSymlink then
        match env.stat64 path with
        | none => lst
        | some st => st
      else lst
    let preAttrs : List MetadataAttribute :=
      if isSymlink then
        (match env.stat64 path with
         | none => [⟨"symlink_broken", ["true"]⟩]
         | some _ => []) ++ collectSymlinkInfoAttrs env path
      else []
    let attrs : List MetadataAttribute :=
      preAttrs ++
        [⟨"type", [fileTypeToString lst.mode]⟩,
         ⟨"size", [toString statBuf.size]⟩,
         ⟨"device", [toString statBuf.dev]⟩,
         ⟨"inode", [toString statBuf.ino]⟩,
         ⟨"nlink", [toString statBuf.nlink]⟩,
         ⟨"mode_octal", [modeOctal statBuf.mode]⟩,
         ⟨"mode_symbolic", [modeToSymbolic statBuf.mode]⟩] ++
        (if statBuf.mode &&& 0o4000 != 0 then [⟨"setuid", ["true"]⟩] else []) ++
        (if statBuf.mode &&& 0o2000 != 0 then [⟨"setgid", ["true"]⟩] else []) ++
        (if statBuf.mode &&& 0o1000 != 0 then [⟨"sticky", ["true"]⟩] else []) ++
        collectOwnershipAttrs env statBuf ++
        [⟨"access_time", [env.timeString statBuf.atime]⟩,
         ⟨"modify_time", [env.timeString statBuf.mtime]⟩,
         ⟨"change_time", [env.timeString statBuf.ctime]⟩,
         ⟨"atime_epoch", [toString statBuf.atime]⟩,
         ⟨"mtime_epoch", [toString statBuf.mtime]⟩,
         ⟨"ctime_epoch", [toString statBuf.ctime]⟩,
         ⟨"block_size", [toString statBuf.blksize]⟩,
         ⟨"blocks", [toString statBuf.blocks]⟩] ++
        (if S_ISBLK statBuf.mode || S_ISCHR statBuf.mode then
          [⟨"rdev_major", [toString statBuf.rdevMajor]⟩,
           ⟨"rdev_minor", [toString statBuf.rdevMinor]⟩]
        else [])
    (true, { result with attributes := result.attributes ++ attrs })

/-- file_collector.cpp `FileCollector::collectAccessInfo` as the attribute
list it appends. -/
def collectAccessInfoAttrs (env : FileEnv) (path : String) : List MetadataAttribute :=
  [⟨"current_user_readable", [if env.accessR path then "true" else "false"]⟩,
   ⟨"current_user_writable", [if env.accessW path then "true" else "false"]⟩,
   ⟨"current_user_executable", [if env.accessX path then "true" else "false"]⟩]

/-- file_collector.cpp `FileCollector::collect` (lines 46-66). -/
def FileCollector.collect (env : FileEnv) (identifier : String) : MetadataResult :=
  let result : MetadataResult :=
    { MetadataResult.mkEmpty with type := "file", identifier := identifier }
  if identifier = "" then createErrorResult identifier "Empty file path"
  else
    let (ok, r1) := collectStats env identifier result
    if !ok then r1
    else
      let r2 := { r1 with success := true }
      { r2 with attributes := r2.attributes ++ collectAccessInfoAttrs env identifier }

/-! ## Spec-side definition for the symbolic mode rendering (for the
refinement part of the claim about §4.3) -/

/-- The spec's wording of the symbolic permission string, stated over the
individual permission bits of `st_mode` (bit 8..0 are the rwx bits of owner,
group and other; bits 11, 10, 9 are setuid, setgid and sticky): a 9-character
`rwxrwxrwx` string where the owner and group execute positions show `s`/`S`
when setuid/setgid is set and the other execute position shows `t`/`T` when
the sticky bit is set (lower case when the underlying execute bit is set). -/
def specModeSymbolic (mode : Nat) : String :=
  ⟨[if mode.testBit 8 then 'r' else '-',
    if mode.testBit 7 then 'w' else '-',
    if mode.testBit 11 then (if mode.testBit 6 then 's' else 'S')
    else (if mode.testBit 6 then 'x' else '-'),
    if mode.testBit 5 then 'r' else '-',
    if mode.testBit 4 then 'w' else '-',
    if mode.testBit 10 then (if mode.testBit 3 then 's' else 'S')
    else (if mode.testBit 3 then 'x' else '-'),
    if mode.testBit 2 then 'r' else '-',
    if mode.testBit 1 then 'w' else '-',
    if mode.testBit 9 then (if mode.testBit 0 then 't' else 'T')
    else (if mode.testBit 0 then 'x' else '-')]⟩

/-! ## Concrete environments used as evaluation scenarios -/

/-- `struct stat64` of a regular file with permission bits 0644. -/
def regFile644 : FileStat :=
  { mode := 0o100644, size := 1234, dev := 10, ino := 77, nlink := 1,
    uid := 0, gid := 0, atime := 100, mtime := 200, ctime := 300,
    blksize := 4096, blocks := 8, rdevMajor := 0, rdevMinor := 0 }

/-- A file environment holding exactly one regular 0644 file at
`/etc/hosts`. -/
def fileEnvA : FileEnv :=
  { lstat64 := fun p => if p = "/etc/hosts" then some regFile644 else none
    stat64 := fun _ => none
    readlink := fun _ => none
    lstatError := fun _ => "No such file or directory"
    pwName := fun _ => some "root"
    grName := fun _ => some "system"
    timeString := fun _ => "1970-01-01T00:00:00"
    accessR := fun _ => true
    accessW := fun _ => false
    accessX := fun _ => false }

/-- A process environment holding exactly one process, PID 7, with one basic
attribute. -/
def procEnv7 : ProcEnv :=
  { emptyProcEnv with
      basicInfo := fun pid => if pid = 7 then some [⟨"pid", ["7"]⟩] else none }

/-- The netstat line of the spec's Scenario E. -/
def scenarioELine : String :=
  "f1000e0001891398 tcp4       0      0  *.22               *.*                LISTEN"

/-- A port environment whose TCP/IPv4 netstat output is the Scenario E line
and whose other commands fail. -/
def portEnvE : PortEnv :=
  { emptyPortEnv with tcp4 := some scenarioELine }

/-- The connection record the Scenario E line produces when the correlation
command yields nothing. -/
def scenarioEConn : ConnectionInfo :=
  { protocol := "tcp", localAddress := "*", localPort := "22",
    remoteAddress := "*", remotePort := "*", state := "LISTEN",
    pid := 0, processName := "", user := "" }

/-! ## Helper lemmas -/

/-- `parsePort` in terms of the full-string `strtol` reading: the whole
identifier converts and the value lies in [1,65535]. -/
theorem parsePort_eq (s : String) :
    PortCollector.parsePort s =
      match strtolWhole s with
      | none => none
      | some v => if 1 ≤ v ∧ v ≤ 65535 then some v.toNat else none := by
  unfold PortCollector.parsePort strtolWhole
  by_cases hc : (strtol10 s.data).converted <;>
    by_cases he : (strtol10 s.data).rest.isEmpty <;>
      simp [hc, he]
  by_cases hin : 1 ≤ (strtol10 s.data).value ∧ (strtol10 s.data).value ≤ 65535
  · have h1 : ¬ (strtol10 s.data).value ≤ 0 := by omega
    have h2 : ¬ (strtol10 s.data).value > 65535 := by omega
    simp [h1, h2, hin]
  · have h : (strtol10 s.data).value ≤ 0 ∨ (strtol10 s.data).value > 65535 := by omega
    rcases h with h | h <;> simp [h, hin]

/-- `parsePid` in terms of the full-string `strtol` reading: the whole
identifier converts and the value lies in [1, INT32_MAX]. -/
theorem parsePid_eq (s : String) :
    ProcessCollector.parsePid s =
      match strtolWhole s with
      | none => none
      | some v => if 1 ≤ v ∧ v ≤ 2147483647 then some v.toNat else none := by
  unfold ProcessCollector.parsePid strtolWhole
  by_cases hc : (strtol10 s.data).converted <;>
    by_cases he : (strtol10 s.data).rest.isEmpty <;>
      simp [hc, he]
  by_cases hin : 1 ≤ (strtol10 s.data).value ∧ (strtol10 s.data).value ≤ 2147483647
  · have h1 : ¬ (strtol10 s.data).value ≤ 0 := by omega
    have h2 : ¬ (strtol10 s.data).value > 2147483647 := by omega
    simp [h1, h2, hin]
  · have h : (strtol10 s.data).value ≤ 0 ∨ (strtol10 s.data).value > 2147483647 := by omega
    rcases h with h | h <;> simp [h, hin]

/-- `parsePort` fails exactly when no in-range full-string reading exists. -/
theorem parsePort_none_iff (s : String) :
    PortCollector.parsePort s = none ↔
      ¬ ∃ v : Int, strtolWhole s = some v ∧ 1 ≤ v ∧ v ≤ 65535 := by
  rw [parsePort_eq]
  cases h : strtolWhole s with
  | none => simp
  | some v =>
    dsimp only
    split_ifs with hr <;> simp_all

/-- `parsePid` fails exactly when no in-range full-string reading exists. -/
theorem parsePid_none_iff (s : String) :
    ProcessCollector.parsePid s = none ↔
      ¬ ∃ v : Int, strtolWhole s = some v ∧ 1 ≤ v ∧ v ≤ 2147483647 := by
  rw [parsePid_eq]
  cases h : strtolWhole s with
  | none => simp
  | some v =>
    dsimp only
    split_ifs with hr <;> simp_all

/-- Unfolding the connection loop of `PortCollector::collect`: folding
`connFoldStep` from counter `i` appends the blocks of the connections
enumerated from `i`. -/
theorem connFold_fst (conns : List ConnectionInfo) (r : MetadataResult) (i : Nat) :
    (conns.foldl connFoldStep (r, i)).1 =
      { r with attributes :=
          r.attributes ++ ((conns.enumFrom i).map fun q => connectionAttrs q.1 q.2).flatten } := by
  induction conns generalizing r i with
  | nil => simp
  | cons c t ih =>
    simp only [List.foldl_cons, List.enumFrom, List.map_cons, List.flatten]
    rw [connFoldStep, ih]
    simp [List.append_assoc]

/-- Shape of `PortCollector::collect` when the identifier parses: success is
set and the attributes are the no-match pair or the connection blocks. -/
theorem portCollect_parsed (env : PortEnv) (proto : Protocol) (s : String) (p : Nat)
    (hp : PortCollector.parsePort s = some p) :
    PortCollector.collect env proto s =
      (if (collectConnections env proto p).isEmpty then
        { type := "port", identifier := s,
          attributes := [⟨"status", ["no_connections_found"]⟩, ⟨"port", [s]⟩],
          success := true, errorMessage := "" }
      else
        { type := "port", identifier := s,
          attributes :=
            ⟨"port", [s]⟩ ::
              ⟨"num_connections", [toString (Int.ofNat (collectConnections env proto p).length)]⟩ ::
                (((collectConnections env proto p).enumFrom 0).map
                  fun q => connectionAttrs q.1 q.2).flatten,
          success := true, errorMessage := "" }) := by
  unfold PortCollector.collect
  rw [hp]
  by_cases hc : (collectConnections env proto p).isEmpty <;>
    simp only [hc, if_true, if_false, Bool.false_eq_true, MetadataResult.addAttribute,
      MetadataResult.mkEmpty, connFold_fst, ite_true, ite_false] <;>
    simp

/-- `PortCollector::collect` fails exactly on an unparsable identifier. -/
theorem portCollect_success_iff (env : PortEnv) (proto : Protocol) (s : String) :
    (PortCollector.collect env proto s).success = false ↔
      PortCollector.parsePort s = none := by
  cases hp : PortCollector.parsePort s with
  | none =>
    unfold PortCollector.collect
    rw [hp]
    simp [createErrorResult, MetadataResult.mkEmpty]
  | some p =>
    rw [portCollect_parsed env proto s p hp]
    by_cases hc : (collectConnections env proto p).isEmpty <;> simp [hc]

/-- C2: `PortCollector::collect` parses the identifier as a base-10 integer;
it returns an error Result (success=false with an errorMessage) exactly when
the identifier does not read in full as an integer in [1,65535]; "0" and
"65536" are rejected while "1" and "65535" are accepted. -/
theorem C2_port_parse_boundaries :
    (∀ (env : PortEnv) (proto : Protocol) (s : String),
      ((PortCollector.collect env proto s).success = false ↔
        ¬ ∃ v : Int, strtolWhole s = some v ∧ 1 ≤ v ∧ v ≤ 65535) ∧
      (PortCollector.parsePort s = none →
        PortCollector.collect env proto s =
          createErrorResult s ("Invalid port number: " ++ s))) ∧
    PortCollector.parsePort "0" = none ∧
    PortCollector.parsePort "65536" = none ∧
    PortCollector.parsePort "1" = some 1 ∧
    PortCollector.parsePort "65535" = some 65535 := by
  refine ⟨fun env proto s => ⟨?_, ?_⟩, by decide, by decide, by decide, by decide⟩
  · rw [portCollect_success_iff, parsePort_none_iff]
  · intro hp
    unfold PortCollector.collect
    rw [hp]

/-- Witness for C2 at the boundary input "65536". -/
theorem C2_port_parse_boundaries_witness :
    PortCollector.collect emptyPortEnv Protocol.Both "65536" =
      createErrorResult "65536" ("Invalid port number: " ++ "65536") :=
  (C2_port_parse_boundaries.1 emptyPortEnv Protocol.Both "65536").2 (by decide)

/-- C8: `ProcessCollector::collect` parses the PID as a positive base-10
integer bounded by `INT32_MAX` and returns an error Result for non-numeric or
out-of-range input; "0" and over-maximum values are rejected and "007" parses
to 7. -/
theorem C8_pid_parse_boundaries :
    (∀ s : String,
      ProcessCollector.parsePid s = none ↔
        ¬ ∃ v : Int, strtolWhole s = some v ∧ 1 ≤ v ∧ v ≤ 2147483647) ∧
    (∀ (env : ProcEnv) (s : String),
      ProcessCollector.parsePid s = none →
        ProcessCollector.collect env s =
          createErrorResult s ("Invalid PID format: " ++ s)) ∧
    ProcessCollector.parsePid "0" = none ∧
    ProcessCollector.parsePid "2147483648" = none ∧
    ProcessCollector.parsePid "007" = some 7 ∧
    ProcessCollector.parsePid "2147483647" = some 2147483647 := by
  refine ⟨parsePid_none_iff, fun env s hp => ?_, by decide, by decide, by decide, by decide⟩
  unfold ProcessCollector.collect
  rw [hp]

/-- Witness for C8 at the leading-zero input "0" and via the error path. -/
theorem C8_pid_parse_boundaries_witness :
    ProcessCollector.collect emptyProcEnv "99999999999" =
      createErrorResult "99999999999" ("Invalid PID format: " ++ "99999999999") :=
  C8_pid_parse_boundaries.2.1 emptyProcEnv "99999999999" (by decide)

/-- C6: for a valid port identifier with zero matching connections, `collect`
succeeds with `status=no_connections_found`, the echoed port, and no other
attributes (in particular none of the `connection_*` blocks). -/
theorem C6_no_connections (env : PortEnv) (proto : Protocol) (s : String) (p : Nat)
    (hp : PortCollector.parsePort s = some p)
    (hz : collectConnections env proto p = []) :
    PortCollector.collect env proto s =
      { type := "port", identifier := s,
        attributes := [⟨"status", ["no_connections_found"]⟩, ⟨"port", [s]⟩],
        success := true, errorMessage := "" } := by
  rw [portCollect_parsed env proto s p hp]
  simp [hz]

/-- Witness for C6: port "22" against an environment with no connections. -/
theorem C6_no_connections_witness :
    PortCollector.collect emptyPortEnv Protocol.Both "22" =
      { type := "port", identifier := "22",
        attributes := [⟨"status", ["no_connections_found"]⟩, ⟨"port", ["22"]⟩],
        success := true, errorMessage := "" } :=
  C6_no_connections emptyPortEnv Protocol.Both "22" 22 (by decide) (by decide)

/-- C7: `createErrorResult` yields success=false, the given identifier and
message and no attributes, and all three collectors return exactly such a
Result for empty file path, invalid PID format, invalid port format, and
process-not-found conditions. -/
theorem C7_createErrorResult_uniform :
    (∀ i m : String,
      createErrorResult i m =
        { type := "", identifier := i, attributes := [], success := false,
          errorMessage := m }) ∧
    (∀ env : FileEnv,
      FileCollector.collect env "" = createErrorResult "" "Empty file path") ∧
    (∀ (env : ProcEnv) (s : String),
      ProcessCollector.parsePid s = none →
        ProcessCollector.collect env s =
          createErrorResult s ("Invalid PID format: " ++ s)) ∧
    (∀ (env : ProcEnv) (s : String) (p : Nat),
      ProcessCollector.parsePid s = some p → env.basicInfo p = none →
        ProcessCollector.collect env s =
          createErrorResult s ("Process not found or access denied for PID: " ++ s)) ∧
    (∀ (env : PortEnv) (proto : Protocol) (s : String),
      PortCollector.parsePort s = none →
        PortCollector.collect env proto s =
          createErrorResult s ("Invalid port number: " ++ s)) := by
  refine ⟨fun i m => rfl, fun env => rfl, fun env s hp => ?_,
    fun env s p hp hb => ?_, fun env proto s hp => ?_⟩
  · unfold ProcessCollector.collect
    rw [hp]
  · unfold ProcessCollector.collect
    rw [hp]
    dsimp only
    rw [hb]
  · unfold PortCollector.collect
    rw [hp]

/-- Witness for C7: a PID that parses but names no live process. -/
theorem C7_createErrorResult_uniform_witness :
    ProcessCollector.collect procEnv7 "9" =
      createErrorResult "9" ("Process not found or access denied for PID: " ++ "9") :=
  C7_createErrorResult_uniform.2.2.2.1 procEnv7 "9" 9 (by decide) (by decide)

/-- C1 as stated is false: the error Result returned for a malformed port
identifier is built by `createErrorResult`, which default-constructs the
Result and never sets `type`, so its `type` field is the empty string rather
than "port". -/
theorem C1_counterexample :
    (PortCollector.collect emptyPortEnv Protocol.Both "not-a-port").success = false ∧
    (PortCollector.collect emptyPortEnv Protocol.Both "not-a-port").errorMessage ≠ "" ∧
    (PortCollector.collect emptyPortEnv Protocol.Both "not-a-port").type ≠ "port" ∧
    (PortCollector.collect emptyPortEnv Protocol.Both "not-a-port").type ≠ "process" ∧
    (PortCollector.collect emptyPortEnv Protocol.Both "not-a-port").type ≠ "file" ∧
    (PortCollector.collect emptyPortEnv Protocol.Both "not-a-port").type = "" := by
  decide

/-- C1 amended: every Result returned with success=true carries the type of
the invoked collector ("port"/"process"/"file"), while the error Results
built by `createErrorResult` carry success=false, an empty attribute list and
an empty `type` field. -/
theorem C1_amended_types :
    (∀ (env : PortEnv) (proto : Protocol) (s : String),
      (PortCollector.collect env proto s).success = true →
        (PortCollector.collect env proto s).type = "port") ∧
    (∀ (env : ProcEnv) (s : String),
      (ProcessCollector.collect env s).success = true →
        (ProcessCollector.collect env s).type = "process") ∧
    (∀ (env : FileEnv) (s : String),
      (FileCollector.collect env s).success = true →
        (FileCollector.collect env s).type = "file") ∧
    (∀ i m : String,
      (createErrorResult i m).type = "" ∧ (createErrorResult i m).success = false ∧
        (createErrorResult i m).attributes = []) := by
  refine ⟨fun env proto s hs => ?_, fun env s hs => ?_, fun env s hs => ?_,
    fun i m => ⟨rfl, rfl, rfl⟩⟩
  · cases hp : PortCollector.parsePort s with
    | none =>
      rw [(portCollect_success_iff env proto s).2 hp] at hs
      exact absurd hs (by simp)
    | some p =>
      rw [portCollect_parsed env proto s p hp]
      by_cases hc : (collectConnections env proto p).isEmpty <;> simp [hc]
  · unfold ProcessCollector.collect at hs ⊢
    cases hp : ProcessCollector.parsePid s with
    | none =>
      rw [hp] at hs
      exact absurd hs (by simp [createErrorResult, MetadataResult.mkEmpty])
    | some p =>
      rw [hp] at hs
      dsimp only at hs
      cases hb : env.basicInfo p with
      | none =>
        rw [hb] at hs
        exact absurd hs (by simp [createErrorResult, MetadataResult.mkEmpty])
      | some attrs =>
        dsimp only
        rw [hb]
  · unfold FileCollector.collect at hs ⊢
    by_cases hse : s = ""
    · rw [if_pos hse] at hs
      exact absurd hs (by simp [createErrorResult, MetadataResult.mkEmpty])
    · rw [if_neg hse] at hs ⊢
      cases hl : env.lstat64 s with
      | none => simp [collectStats, hl] at hs ⊢
      | some st => simp [collectStats, hl] at hs ⊢

/-- Witness for C1 amended: the successful port query of a no-connection
environment carries type "port". -/
theorem C1_amended_types_witness :
    (PortCollector.collect emptyPortEnv Protocol.Both "22").type = "port" :=
  C1_amended_types.1 emptyPortEnv Protocol.Both "22" (by decide)

/-- `lsofApply` (process correlation) only ever writes the process
attribution fields; the connection fields pass through unchanged. -/
theorem lsofApply_preserves (ls : List (List Char)) (info : ConnectionInfo) :
    (lsofApply ls info).protocol = info.protocol ∧
    (lsofApply ls info).localAddress = info.localAddress ∧
    (lsofApply ls info).localPort = info.localPort ∧
    (lsofApply ls info).remoteAddress = info.remoteAddress ∧
    (lsofApply ls info).remotePort = info.remotePort ∧
    (lsofApply ls info).state = info.state := by
  induction ls generalizing info with
  | nil => simp [lsofApply]
  | cons h t ih =>
    rw [lsofApply]
    split_ifs with h1 h2 h3 <;> first | exact ih info | simp

/-- `findProcessForPort` only ever writes the process attribution fields. -/
theorem findProcess_preserves (lsofOut : Option String) (info : ConnectionInfo) :
    (findProcessForPort lsofOut info).protocol = info.protocol ∧
    (findProcessForPort lsofOut info).localAddress = info.localAddress ∧
    (findProcessForPort lsofOut info).localPort = info.localPort ∧
    (findProcessForPort lsofOut info).remoteAddress = info.remoteAddress ∧
    (findProcessForPort lsofOut info).remotePort = info.remotePort ∧
    (findProcessForPort lsofOut info).state = info.state := by
  cases lsofOut with
  | none => simp [findProcessForPort]
  | some out =>
    rw [findProcessForPort]
    split_ifs with h
    · simp
    · exact lsofApply_preserves _ _

/-- C4: the Scenario E netstat line, parsed in the TCP/IPv4 pass with target
port 22 (for any outcome of the `lsof` correlation command), yields exactly
one connection record with protocol "tcp", local port "22", state "LISTEN"
and remote port "*"; its leading 16-character token passes the socket-handle
test (longer than 10 characters, hex digits only), shifting the columns so
that the local address is read from the fifth token. -/
theorem C4_scenarioE (lsofOut : Option String) :
    ∃ c, parseNetstatOutput lsofOut scenarioELine 22 "tcp" = [c] ∧
      c.protocol = "tcp" ∧ c.localPort = "22" ∧ c.state = "LISTEN" ∧
      c.remotePort = "*" ∧ c.localAddress = "*" ∧
      isSocketHandle "f1000e0001891398" = true ∧
      "f1000e0001891398".length = 16 ∧
      tokenize scenarioELine =
        ["f1000e0001891398", "tcp4", "0", "0", "*.22", "*.*", "LISTEN"] := by
  have hout : parseNetstatOutput lsofOut scenarioELine 22 "tcp" =
      [findProcessForPort lsofOut
        { protocol := "tcp", localAddress := "*", localPort := "22",
          remoteAddress := "*", remotePort := "*", state := "LISTEN",
          pid := 0, processName := "", user := "" }] := rfl
  obtain ⟨hp, hla, hlp, hra, hrp, hst⟩ := findProcess_preserves lsofOut
    { protocol := "tcp", localAddress := "*", localPort := "22",
      remoteAddress := "*", remotePort := "*", state := "LISTEN",
      pid := 0, processName := "", user := "" }
  exact ⟨_, hout, hp, hlp, hst, hrp, hla, by decide, by decide, by decide⟩

/-- A character list without a dot has no last-dot split. -/
theorem rsplitDot_eq_none (cs : List Char) (h : cs.contains '.' = false) :
    rsplitDot cs = none := by
  induction cs with
  | nil => rfl
  | cons c t ih =>
    simp only [List.contains_cons, Bool.or_eq_false_iff] at h
    rw [rsplitDot, ih h.2]
    simp only [beq_eq_false_iff_ne] at h
    simp [Ne.symm h.1]

/-- C10: a line whose local-address token has no dot is skipped before the
port-match test, even when its foreign-address token's port equals the
target; the concrete line `tcp4 0 0 * 10.0.0.1.22 ESTABLISHED` with target
port 22 yields no record although its foreign port token re-parses to 22. -/
theorem C10_local_dot_required :
    (∀ (lsofOut : Option String) (p : Nat) (proto line sa la fa st : String),
      netstatColumns line = some (sa, la, fa, st) →
      la.data.contains '.' = false →
      parseNetstatLine lsofOut p proto line = none) ∧
    parseNetstatLine none 22 "tcp" "tcp4 0 0 * 10.0.0.1.22 ESTABLISHED" = none ∧
    netstatColumns "tcp4 0 0 * 10.0.0.1.22 ESTABLISHED" =
      some ("", "*", "10.0.0.1.22", "ESTABLISHED") ∧
    rsplitDot "10.0.0.1.22".data = some ("10.0.0.1".data, "22".data) ∧
    portTokenMatches 22 "22".data = true ∧
    "*".data.contains '.' = false := by
  refine ⟨fun lsofOut p proto line sa la fa st hcols hdot => ?_,
    by decide, by decide, by decide, by decide, by decide⟩
  unfold parseNetstatLine
  rw [hcols]
  dsimp only
  rw [rsplitDot_eq_none la.data hdot]

/-- Witness for C10's general part, at the concrete dotless-local line with a
present (but irrelevant) lsof output. -/
theorem C10_local_dot_required_witness :
    parseNetstatLine (some "sshd 10 root") 22 "tcp"
      "tcp4 0 0 * 10.0.0.1.22 ESTABLISHED" = none :=
  C10_local_dot_required.1 (some "sshd 10 root") 22 "tcp"
    "tcp4 0 0 * 10.0.0.1.22 ESTABLISHED" "" "*" "10.0.0.1.22" "ESTABLISHED"
    (by decide) (by decide)

/-- A `strtol` call that performed no conversion yields the value 0. -/
theorem strtol10_not_converted (cs : List Char)
    (h : (strtol10 cs).converted = false) : (strtol10 cs).value = 0 := by
  unfold strtol10 at *
  dsimp only at *
  split_ifs at * <;> simp_all

/-- A port substring that passes the `*endPtr == '\0' && value == port` test
for a positive target port reads in full as that port. -/
theorem portTokenMatches_strtolWhole (p : Nat) (hp : 1 ≤ p) (cs : List Char)
    (h : portTokenMatches p cs = true) :
    strtolWhole ⟨cs⟩ = some (p : Int) := by
  unfold portTokenMatches at h
  simp only [Bool.and_eq_true, beq_iff_eq] at h
  have hconv : (strtol10 cs).converted = true := by
    by_contra hc
    have h0 := strtol10_not_converted cs (by simpa using hc)
    rw [h.2] at h0
    omega
  unfold strtolWhole
  dsimp only
  rw [hconv, h.1]
  simp [h.2]

/-- C3: every connection record kept by `parseNetstatOutput` for a target
port p in [1,65535] carries p as its re-parsed local port token or as its
re-parsed foreign (remote) port token. -/
theorem C3_kept_matches_port (p : Nat) (hp1 : 1 ≤ p) (hp2 : p ≤ 65535)
    (lsofOut : Option String) (proto line : String) (c : ConnectionInfo)
    (h : parseNetstatLine lsofOut p proto line = some c) :
    strtolWhole c.localPort = some (p : Int) ∨
      strtolWhole c.remotePort = some (p : Int) := by
  unfold parseNetstatLine at h
  cases hcols : netstatColumns line with
  | none =>
    rw [hcols] at h
    exact absurd h (by simp)
  | some cols =>
    obtain ⟨sa, la, fa, st⟩ := cols
    rw [hcols] at h
    dsimp only at h
    cases hsplit : rsplitDot la.data with
    | none =>
      rw [hsplit] at h
      exact absurd h (by simp)
    | some pr =>
      obtain ⟨ipCs, lpCs⟩ := pr
      rw [hsplit] at h
      dsimp only at h
      by_cases hk : keepLine p lpCs fa = true
      · rw [if_pos hk] at h
        have hc : c =
            (if sa ≠ "" then
              findProcessForPort lsofOut (buildConnInfo proto ipCs lpCs fa st)
            else buildConnInfo proto ipCs lpCs fa st) := (Option.some.inj h).symm
        have hlp : c.localPort = ⟨lpCs⟩ := by
          rw [hc]
          split_ifs with hsa
          · exact (findProcess_preserves _ _).2.2.1
          · rfl
        have hrp : c.remotePort = (buildConnInfo proto ipCs lpCs fa st).remotePort := by
          rw [hc]
          split_ifs with hsa
          · exact (findProcess_preserves _ _).2.2.2.2.1
          · rfl
        by_cases hl : portTokenMatches p lpCs = true
        · exact Or.inl (hlp ▸ portTokenMatches_strtolWhole p hp1 lpCs hl)
        · right
          unfold keepLine at hk
          rw [if_neg hl] at hk
          cases hf : rsplitDot fa.data with
          | none =>
            rw [hf] at hk
            exact absurd hk (by simp)
          | some fpr =>
            obtain ⟨a, fpCs⟩ := fpr
            rw [hf] at hk
            have hbrp : (buildConnInfo proto ipCs lpCs fa st).remotePort = ⟨fpCs⟩ := by
              unfold buildConnInfo
              rw [hf]
            rw [hrp, hbrp]
            exact portTokenMatches_strtolWhole p hp1 fpCs hk
      · rw [if_neg hk] at h
        exact absurd h (by simp)

/-- Witness for C3 at the Scenario E line and port 22. -/
theorem C3_kept_matches_port_witness :
    strtolWhole scenarioEConn.localPort = some (22 : Int) ∨
      strtolWhole scenarioEConn.remotePort = some (22 : Int) :=
  C3_kept_matches_port 22 (by decide) (by decide) none "tcp" scenarioELine
    scenarioEConn (by decide)

/-- Bridge between the C-style `mode & bit` tests and `Nat.testBit`. -/
theorem land_pow_ne_testBit (m k : Nat) : (m &&& 2 ^ k != 0) = m.testBit k := by
  rw [Nat.and_two_pow]
  cases h : m.testBit k <;> simp [h, Nat.pos_iff_ne_zero, pow_ne_zero]

/-- C9: `modeToSymbolic` renders exactly the spec's 9-character
`rwxrwxrwx` string with `s`/`S`/`t`/`T` substitutions, and a regular file
with permission bits 0644 is reported with `mode_octal="0644"`,
`mode_symbolic="rw-r--r--"` and `type="regular"`. -/
theorem C9_mode_symbolic :
    (∀ mode : Nat,
      modeToSymbolic mode = specModeSymbolic mode ∧
        (modeToSymbolic mode).length = 9) ∧
    modeToSymbolic 0o100644 = "rw-r--r--" ∧
    modeOctal 0o100644 = "0644" ∧
    fileTypeToString 0o100644 = "regular" ∧
    ⟨"mode_octal", ["0644"]⟩ ∈ (FileCollector.collect fileEnvA "/etc/hosts").attributes ∧
    ⟨"mode_symbolic", ["rw-r--r--"]⟩ ∈
      (FileCollector.collect fileEnvA "/etc/hosts").attributes ∧
    ⟨"type", ["regular"]⟩ ∈ (FileCollector.collect fileEnvA "/etc/hosts").attributes ∧
    (FileCollector.collect fileEnvA "/etc/hosts").success = true := by
  refine ⟨fun mode => ⟨?_, rfl⟩, by decide, by decide, by decide, by decide,
    by decide, by decide, by decide⟩
  unfold modeToSymbolic specModeSymbolic
  have h8 : (mode &&& 256 != 0) = mode.testBit 8 := land_pow_ne_testBit mode 8
  have h7 : (mode &&& 128 != 0) = mode.testBit 7 := land_pow_ne_testBit mode 7
  have h6 : (mode &&& 64 != 0) = mode.testBit 6 := land_pow_ne_testBit mode 6
  have h11 : (mode &&& 2048 != 0) = mode.testBit 11 := land_pow_ne_testBit mode 11
  have h5 : (mode &&& 32 != 0) = mode.testBit 5 := land_pow_ne_testBit mode 5
  have h4 : (mode &&& 16 != 0) = mode.testBit 4 := land_pow_ne_testBit mode 4
  have h3 : (mode &&& 8 != 0) = mode.testBit 3 := land_pow_ne_testBit mode 3
  have h10 : (mode &&& 1024 != 0) = mode.testBit 10 := land_pow_ne_testBit mode 10
  have h2 : (mode &&& 4 != 0) = mode.testBit 2 := land_pow_ne_testBit mode 2
  have h1 : (mode &&& 2 != 0) = mode.testBit 1 := land_pow_ne_testBit mode 1
  have h0 : (mode &&& 1 != 0) = mode.testBit 0 := land_pow_ne_testBit mode 0
  have h9 : (mode &&& 512 != 0) = mode.testBit 9 := land_pow_ne_testBit mode 9
  simp only [h8, h7, h6, h11, h5, h4, h3, h10, h2, h1, h0, h9]

/-- Appending different suffixes to the same string yields different
strings. -/
theorem append_ne_of_ne (a : String) {x y : String} (h : x ≠ y) :
    a ++ x ≠ a ++ y := by
  intro he
  apply h
  have hd : (a ++ x).data = (a ++ y).data := by rw [he]
  simp only [String.data_append] at hd
  have h2 := List.append_cancel_left hd
  cases x
  cases y
  exact congrArg String.mk h2

/-- C5: with at least one matching connection, `collect` succeeds, reports
`num_connections` as the number of matches, and emits per connection the
`connection_<index>_` block in the TCP-before-UDP, IPv4-before-IPv6
concatenation order, with pid/process/user present exactly when known. -/
theorem C5_connection_blocks (env : PortEnv) (proto : Protocol) (s : String) (p : Nat)
    (hp : PortCollector.parsePort s = some p)
    (hne : ¬ (collectConnections env proto p).isEmpty = true) :
    (PortCollector.collect env proto s).success = true ∧
    (PortCollector.collect env proto s).attributes =
      ⟨"port", [s]⟩ ::
        ⟨"num_connections",
          [toString (Int.ofNat (collectConnections env proto p).length)]⟩ ::
          ((collectConnections env proto p).enum.map
            fun q => connectionAttrs q.1 q.2).flatten ∧
    collectConnections env proto p =
      (if proto = Protocol.TCP ∨ proto = Protocol.Both then
        collectTcpConnections env p
      else []) ++
        (if proto = Protocol.UDP ∨ proto = Protocol.Both then
          collectUdpConnections env p
        else []) ∧
    (∀ (idx : Nat) (c : ConnectionInfo),
      let pfx := "connection_" ++ toString idx ++ "_"
      (⟨pfx ++ "pid", [toString c.pid]⟩ ∈ connectionAttrs idx c ↔ 0 < c.pid) ∧
        (⟨pfx ++ "process", [c.processName]⟩ ∈ connectionAttrs idx c ↔
          c.processName ≠ "") ∧
        (⟨pfx ++ "user", [c.user]⟩ ∈ connectionAttrs idx c ↔ c.user ≠ "")) := by
  refine ⟨?_, ?_, rfl, ?_⟩
  · rw [portCollect_parsed env proto s p hp, if_neg hne]
  · rw [portCollect_parsed env proto s p hp, if_neg hne]
    simp [List.enum]
  · intro idx c pfx
    have hne1 : (pfx ++ "pid" : String) ≠ pfx ++ "protocol" := append_ne_of_ne pfx (by decide)
    have hne2 : (pfx ++ "pid" : String) ≠ pfx ++ "local_address" := append_ne_of_ne pfx (by decide)
    have hne3 : (pfx ++ "pid" : String) ≠ pfx ++ "local_port" := append_ne_of_ne pfx (by decide)
    have hne4 : (pfx ++ "pid" : String) ≠ pfx ++ "remote_address" := append_ne_of_ne pfx (by decide)
    have hne5 : (pfx ++ "pid" : String) ≠ pfx ++ "remote_port" := append_ne_of_ne pfx (by decide)
    have hne6 : (pfx ++ "pid" : String) ≠ pfx ++ "state" := append_ne_of_ne pfx (by decide)
    have hne7 : (pfx ++ "pid" : String) ≠ pfx ++ "process" := append_ne_of_ne pfx (by decide)
    have hne8 : (pfx ++ "pid" : String) ≠ pfx ++ "user" := append_ne_of_ne pfx (by decide)
    have hme1 : (pfx ++ "process" : String) ≠ pfx ++ "protocol" := append_ne_of_ne pfx (by decide)
    have hme2 : (pfx ++ "process" : String) ≠ pfx ++ "local_address" := append_ne_of_ne pfx (by decide)
    have hme3 : (pfx ++ "process" : String) ≠ pfx ++ "local_port" := append_ne_of_ne pfx (by decide)
    have hme4 : (pfx ++ "process" : String) ≠ pfx ++ "remote_address" := append_ne_of_ne pfx (by decide)
    have hme5 : (pfx ++ "process" : String) ≠ pfx ++ "remote_port" := append_ne_of_ne pfx (by decide)
    have hme6 : (pfx ++ "process" : String) ≠ pfx ++ "state" := append_ne_of_ne pfx (by decide)
    have hme7 : (pfx ++ "process" : String) ≠ pfx ++ "pid" := append_ne_of_ne pfx (by decide)
    have hme8 : (pfx ++ "process" : String) ≠ pfx ++ "user" := append_ne_of_ne pfx (by decide)
    have hue1 : (pfx ++ "user" : String) ≠ pfx ++ "protocol" := append_ne_of_ne pfx (by decide)
    have hue2 : (pfx ++ "user" : String) ≠ pfx ++ "local_address" := append_ne_of_ne pfx (by decide)
    have hue3 : (pfx ++ "user" : String) ≠ pfx ++ "local_port" := append_ne_of_ne pfx (by decide)
    have hue4 : (pfx ++ "user" : String) ≠ pfx ++ "remote_address" := append_ne_of_ne pfx (by decide)
    have hue5 : (pfx ++ "user" : String) ≠ pfx ++ "remote_port" := append_ne_of_ne pfx (by decide)
    have hue6 : (pfx ++ "user" : String) ≠ pfx ++ "state" := append_ne_of_ne pfx (by decide)
    have hue7 : (pfx ++ "user" : String) ≠ pfx ++ "pid" := append_ne_of_ne pfx (by decide)
    have hue8 : (pfx ++ "user" : String) ≠ pfx ++ "process" := append_ne_of_ne pfx (by decide)
    unfold connectionAttrs
    refine ⟨?_, ?_, ?_⟩ <;>
      by_cases hpid : 0 < c.pid <;>
        by_cases hpn : c.processName = "" <;>
          by_cases hus : c.user = "" <;>
            simp_all [MetadataAttribute.mk.injEq]

/-- Witness for C5: a one-connection environment built from the Scenario E
line at port "22". -/
theorem C5_connection_blocks_witness :
    (PortCollector.collect portEnvE Protocol.Both "22").success = true ∧
    (PortCollector.collect portEnvE Protocol.Both "22").attributes =
      ⟨"port", ["22"]⟩ ::
        ⟨"num_connections",
          [toString (Int.ofNat (collectConnections portEnvE Protocol.Both 22).length)]⟩ ::
          ((collectConnections portEnvE Protocol.Both 22).enum.map
            fun q => connectionAttrs q.1 q.2).flatten ∧
    collectConnections portEnvE Protocol.Both 22 =
      (if Protocol.Both = Protocol.TCP ∨ Protocol.Both = Protocol.Both then
        collectTcpConnections portEnvE 22
      else []) ++
        (if Protocol.Both = Protocol.UDP ∨ Protocol.Both = Protocol.Both then
          collectUdpConnections portEnvE 22
        else []) ∧
    (∀ (idx : Nat) (c : ConnectionInfo),
      let pfx := "connection_" ++ toString idx ++ "_"
      (⟨pfx ++ "pid", [toString c.pid]⟩ ∈ connectionAttrs idx c ↔ 0 < c.pid) ∧
        (⟨pfx ++ "process", [c.processName]⟩ ∈ connectionAttrs idx c ↔
          c.processName ≠ "") ∧
        (⟨pfx ++ "user", [c.user]⟩ ∈ connectionAttrs idx c ↔ c.user ≠ "")) :=
  C5_connection_blocks portEnvE Protocol.Both "22" 22 (by decide) (by decide)

end AixMetadata
